import Mathlib

/-!
Verification of the climate-resilient healthcare dashboard's aggregation
and consistency core against its frontend source.

The embedding below translates the relevant TypeScript functions into Lean:

* `calculatePercentage` / `getResourceStatusColor` — the resource-gap
  percentage and status colour from the hospital-resources page
  (PROJECT_SUMMARY.md, `calculatePercentage`, `getResourceStatusColor`).
* `handleLocationSelect`, `riskResolveOk`, `riskResolveErr`,
  `resourceResolveOk`, `resourceResolveErr` — the selection/fetch state
  machine of `Dashboard.tsx`, modelled as explicit state transitions of an
  event loop: a fetch completion is an event applied to the component state.
* `getColor` — the risk-level colour mapping of `IndiaLeafletMap.tsx`, and
  `getColorScale` / `riskLevelToValue` — the Plotly colour scale of the
  `IndiaMap` component.
* `alertsPageSelect` — the location scoping of `alerts.tsx`.
* `aggregate` — the overall-risk aggregation; the backend service computing
  it is not part of the repository snapshot, so it is modelled from the spec
  (see its doc comment).

JavaScript numbers are modelled by `ℚ` (exact arithmetic; every value the
claims touch is exactly representable), and the nullable / NaN behaviour of
the selection argument by the small sum type `JSNum`.
-/

namespace ClimateDash

/-! Section: Resource gap (hospital resources page) -/

/-- `calculatePercentage` from the resources page:
```js
const calculatePercentage = (available, predicted) => {
  if (predicted === 0) return 100; // No need
  const percentage = (available / predicted) * 100;
  return Math.min(100, Math.max(0, percentage)); // Clamp between 0-100
};
``` -/
def calculatePercentage (available predicted : ℚ) : ℚ :=
  if predicted = 0 then 100
  else min 100 (max 0 (available / predicted * 100))

/-- `getResourceStatusColor` from the resources page:
```js
const getResourceStatusColor = (percentage) => {
  if (percentage >= 100) return 'success.main';
  if (percentage >= 70) return 'warning.main';
  return 'error.main';
};
```
`success.main` renders the sufficient state, `warning.main` the warning
state and `error.main` the critical state. -/
def getResourceStatusColor (percentage : ℚ) : String :=
  if 100 ≤ percentage then "success.main"
  else if 70 ≤ percentage then "warning.main"
  else "error.main"

/-! Section: Risk levels and diseases -/

/-- The five-point ordinal risk scale used throughout the frontend. -/
inductive RiskLevel
  | unknown
  | low
  | medium
  | high
  | critical
  deriving DecidableEq, Repr

/-- Position of a level in the total order `unknown < low < medium < high <
critical`; also the numeric value `riskLevelToValue` assigns in the
`IndiaMap` component (`unknown: 0, low: 1, medium: 2, high: 3, critical: 4`). -/
def RiskLevel.toNat : RiskLevel → ℕ
  | .unknown => 0
  | .low => 1
  | .medium => 2
  | .high => 3
  | .critical => 4

/-- The larger of two risk levels under the ordinal scale. -/
def rlMax (a b : RiskLevel) : RiskLevel :=
  if a.toNat ≤ b.toNat then b else a

/-- The four diseases tracked by the dashboard. -/
inductive Disease
  | dengue
  | malaria
  | heatstroke
  | diarrhea
  deriving DecidableEq, Repr

/-- Position of a disease in the enumeration order (dengue, malaria,
heatstroke, diarrhea). -/
def diseaseIndex : Disease → ℕ
  | .dengue => 0
  | .malaria => 1
  | .heatstroke => 2
  | .diarrhea => 3

/-- The disease enumeration order as a list. -/
def diseaseEnumOrder : List Disease :=
  [.dengue, .malaria, .heatstroke, .diarrhea]

/-- One per-disease risk record of a location snapshot. -/
structure DiseaseRiskRecord where
  disease : Disease
  probability : ℚ
  risk_level : RiskLevel
  deriving DecidableEq, Repr

/-- The derived overall risk of a location. -/
structure OverallRisk where
  level : RiskLevel
  contributing_disease : Option Disease
  deriving DecidableEq, Repr

/-- Maximum risk level over a record list (`unknown` for the empty list). -/
def listMaxLevel (rs : List DiseaseRiskRecord) : RiskLevel :=
  rs.foldr (fun r acc => rlMax r.risk_level acc) .unknown

/-- `true` iff some record of `rs` for disease `d` carries level `m`. -/
def hasLevel (rs : List DiseaseRiskRecord) (d : Disease) (m : RiskLevel) : Bool :=
  rs.any fun r => decide (r.disease = d ∧ r.risk_level = m)

/-- Modelled from the spec: the overall-risk aggregation
(`RiskAggregator.aggregate`, spec §4.3).  The backend prediction service
that computes the `overall` entry consumed by `Dashboard.tsx` (lines
632–640) is not under `src/`; only its callers are.  Per the spec: the
overall level is the maximum record level under
`unknown < low < medium < high < critical`; `contributing_disease` is the
disease that produced that maximum, ties broken by the enumeration order
(dengue, malaria, heatstroke, diarrhea); the empty sequence yields
`{level: unknown, contributing_disease: null}`. -/
def aggregate (rs : List DiseaseRiskRecord) : OverallRisk :=
  if rs.isEmpty then ⟨.unknown, none⟩
  else
    let m := listMaxLevel rs
    ⟨m, diseaseEnumOrder.find? fun d => hasLevel rs d m⟩

/-- A disease produced the maximum of a record list: some record of that
disease is at least as severe as every record in the list.  (Stated
independently of `aggregate`.) -/
def achievesMax (rs : List DiseaseRiskRecord) (d : Disease) : Prop :=
  ∃ r ∈ rs, r.disease = d ∧
    ∀ s ∈ rs, s.risk_level.toNat ≤ r.risk_level.toNat

instance (rs : List DiseaseRiskRecord) (d : Disease) :
    Decidable (achievesMax rs d) := by
  unfold achievesMax; infer_instance

/-! Section: Dashboard selection / fetch state machine (`Dashboard.tsx`)

The component state that the claims touch is `selectedLocation`,
`riskData`, `resourceData`, the per-category loading flags
`isLoading.risk` / `isLoading.resources`, and the (single) `error` string.
Fetch completions are events: the event loop applies
`riskResolveOk/Err` when `fetchRiskData`'s awaited response settles, and
`resourceResolveOk/Err` for `fetchResourceData`.  A response payload
carries the id of the location it was produced for. -/

/-- A risk-prediction response payload; `location_id` identifies which
selection the fetch was issued for. -/
structure RiskPayload where
  location_id : ℤ
  deriving DecidableEq, Repr

/-- A resource-prediction response payload. -/
structure ResourcePayload where
  location_id : ℤ
  deriving DecidableEq, Repr

/-- The `Dashboard` component state relevant to the selection claims. -/
structure DashState where
  selectedLocation : Option (ℤ × String)
  riskData : Option RiskPayload
  resourceData : Option ResourcePayload
  loadingRisk : Bool
  loadingResources : Bool
  error : String
  deriving DecidableEq, Repr

/-- The state of a freshly mounted dashboard. -/
def dashInit : DashState :=
  ⟨none, none, none, false, false, ""⟩

/-- A fetch issued by `handleLocationSelect`, tagged with the location id
passed to `fetchRiskData` / `fetchResourceData`. -/
inductive FetchCmd
  | fetchRisk (locId : ℤ)
  | fetchResources (locId : ℤ)
  deriving DecidableEq, Repr

/-- The runtime value passed as `locationId`: a number, `NaN`, or `null`
(the guard in the source is dynamic even though the declared type is
`number`). -/
inductive JSNum
  | null
  | nan
  | num (n : ℤ)
  deriving DecidableEq, Repr

/-- JavaScript truthiness of a `JSNum` (`null`, `NaN` and `0` are falsy). -/
def JSNum.truthy : JSNum → Bool
  | .null => false
  | .nan => false
  | .num n => decide (n ≠ 0)

/-- JavaScript `isNaN` on a `JSNum` (`isNaN(null)` is `false`, since
`Number(null) = 0`). -/
def JSNum.jsIsNaN : JSNum → Bool
  | .nan => true
  | _ => false

/-- Error message set by `handleLocationSelect` on an invalid id. -/
def invalidSelectionMsg : String :=
  "Invalid location selected. Please try again."

/-- `handleLocationSelect` from `Dashboard.tsx`: on
`!locationId || isNaN(locationId)` it sets the error message and returns
(no state change, no fetch); otherwise it clears the error, stores the
selection, raises both loading flags and issues the two fetches
(`Promise.all([fetchRiskData(locationId), fetchResourceData(locationId)])`). -/
def handleLocationSelect (st : DashState) (locationId : JSNum)
    (locationName : String) : DashState × List FetchCmd :=
  if ¬ locationId.truthy ∨ locationId.jsIsNaN then
    ({ st with error := invalidSelectionMsg }, [])
  else
    match locationId with
    | .num n =>
        ({ st with
            error := ""
            selectedLocation := some (n, locationName)
            loadingRisk := true
            loadingResources := true },
          [.fetchRisk n, .fetchResources n])
    | _ => ({ st with error := invalidSelectionMsg }, [])

/-- Completion of `fetchRiskData` with data: `setRiskData(data)` then the
`finally` block lowers the loading flag.  The source performs no check of
the payload against the current selection. -/
def riskResolveOk (st : DashState) (payload : RiskPayload) : DashState :=
  { st with riskData := some payload, loadingRisk := false }

/-- Error message set when `fetchRiskData`'s request throws. -/
def riskErrMsg : String :=
  "Failed to load risk data. Please check your connection and try again."

/-- Completion of `fetchRiskData` with an exception: `setError(...)` then
the `finally` block lowers the loading flag. -/
def riskResolveErr (st : DashState) : DashState :=
  { st with error := riskErrMsg, loadingRisk := false }

/-- Completion of `fetchResourceData` with data. -/
def resourceResolveOk (st : DashState) (payload : ResourcePayload) : DashState :=
  { st with resourceData := some payload, loadingResources := false }

/-- Error message set when `fetchResourceData`'s request throws. -/
def resourceErrMsg : String :=
  "Failed to load resource data. Please check your connection and try again."

/-- Completion of `fetchResourceData` with an exception. -/
def resourceResolveErr (st : DashState) : DashState :=
  { st with error := resourceErrMsg, loadingResources := false }

/-! Section: Alert feed (`alerts.tsx`) -/

/-- An alert as served by the alerts collaborator. -/
structure Alert where
  location_id : ℤ
  disease : String
  risk_level : String
  probability : ℚ
  message : String
  deriving DecidableEq, Repr

/-- Modelled from the spec: the alerts collaborator
`GET alerts(probabilityThreshold) → sequence<Alert>` (spec §6) serving the
`getAlerts(0.7)` call in `alerts.tsx`; the backend service is not under
`src/`.  Per spec §4.6 it keeps the alerts with probability at or above the
threshold, in order. -/
def alertsCollaborator (alerts : List Alert) (threshold : ℚ) : List Alert :=
  alerts.filter fun a => decide (threshold ≤ a.probability)

/-- The location scoping applied by `AlertsPage.fetchAlerts`:
```js
if (!adminUser && userLocationId) {
  setAlerts(data.alerts.filter((alert) => alert.location_id === userLocationId));
} else {
  setAlerts(data.alerts);
}
```
`userLocationId` is `user?.location_id`, absent (`undefined`) or a number;
`0` is falsy. -/
def alertsPageSelect (served : List Alert) (adminUser : Bool)
    (userLocationId : Option ℤ) : List Alert :=
  match userLocationId with
  | some l =>
      if ¬ adminUser ∧ l ≠ 0 then served.filter fun a => decide (a.location_id = l)
      else served
  | none => served

/-- The alerts visible on the alerts page for a given viewer: the
collaborator's threshold filtering composed with the page's location
scoping. -/
def fetchAlertsVisible (alerts : List Alert) (threshold : ℚ)
    (adminUser : Bool) (userLocationId : Option ℤ) : List Alert :=
  alertsPageSelect (alertsCollaborator alerts threshold) adminUser userLocationId

/-! Section: Map colour encodings (`IndiaLeafletMap.tsx` and the `IndiaMap`
Plotly component) -/

/-- The disease filter selecting which metric colours the map. -/
inductive ColorBy
  | dengue
  | malaria
  | heatstroke
  | diarrhea
  | overall
  deriving DecidableEq, Repr

/-- The map's view mode toggle. -/
inductive ViewMode
  | rates
  | risk_levels
  deriving DecidableEq, Repr

/-- The per-location summary record consumed by the maps; the claims only
need its name and per-disease levels and rates (`dengue_risk_level` is an
optional string in the source, absent values read as `unknown` through
`|| 'unknown'`). -/
structure LocationSummary where
  name : String
  dengue_risk_level : Option RiskLevel
  malaria_risk_level : Option RiskLevel
  heatstroke_risk_level : Option RiskLevel
  diarrhea_risk_level : Option RiskLevel
  overall_risk_level : Option RiskLevel
  dengue_rate : ℚ
  malaria_rate : ℚ
  heatstroke_rate : ℚ
  diarrhea_rate : ℚ
  overall_burden : ℚ
  deriving DecidableEq, Repr

/-- `locationData[`...`_risk_level`] || 'unknown'` for a given filter. -/
def riskLevelField (loc : LocationSummary) : ColorBy → RiskLevel
  | .dengue => loc.dengue_risk_level.getD .unknown
  | .malaria => loc.malaria_risk_level.getD .unknown
  | .heatstroke => loc.heatstroke_risk_level.getD .unknown
  | .diarrhea => loc.diarrhea_risk_level.getD .unknown
  | .overall => loc.overall_risk_level.getD .unknown

/-- The rate value for a given filter (`|| 0` in the source). -/
def rateField (loc : LocationSummary) : ColorBy → ℚ
  | .dengue => loc.dengue_rate
  | .malaria => loc.malaria_rate
  | .heatstroke => loc.heatstroke_rate
  | .diarrhea => loc.diarrhea_rate
  | .overall => loc.overall_burden

/-- The risk-level colour switch of `IndiaLeafletMap.getColor`:
```js
switch (riskLevel) {
  case 'low': return '#66BB6A'; // Green
  case 'medium': return '#FFA726'; // Orange
  case 'high': return '#EF5350'; // Red
  case 'critical': return '#7B1FA2'; // Purple
  default: return '#CCCCCC'; // Gray for unknown
}
``` -/
def leafletRiskColor : RiskLevel → String
  | .low => "#66BB6A"
  | .medium => "#FFA726"
  | .high => "#EF5350"
  | .critical => "#7B1FA2"
  | .unknown => "#CCCCCC"

/-- The rate-gradient branch of `IndiaLeafletMap.getColor`. -/
def leafletRateColor (value : ℚ) : String :=
  if 100 < value then "#7B1FA2"
  else if 50 < value then "#EF5350"
  else if 20 < value then "#FFA726"
  else if 5 < value then "#FFEE58"
  else "#66BB6A"

/-- `IndiaLeafletMap.getColor`: returns gray when the data list is empty or
holds no location of that name, otherwise colours by risk level or by rate
according to the view mode. -/
def getColor (data : List LocationSummary) (viewMode : ViewMode)
    (colorBy : ColorBy) (locationName : String) : String :=
  match data.find? fun loc => decide (loc.name = locationName) with
  | none => "#CCCCCC"
  | some loc =>
      match viewMode with
      | .risk_levels => leafletRiskColor (riskLevelField loc colorBy)
      | .rates => leafletRateColor (rateField loc colorBy)

/-- `riskLevelToValue` of the `IndiaMap` Plotly component, as a rational
anchor position (the component places level `v` at colour-scale position
`v / 5`, its stops sitting at `0, 0.2, 0.4, 0.6, 0.8`). -/
def riskLevelToValue (lv : RiskLevel) : ℚ :=
  (lv.toNat : ℚ)

/-- The risk-level colour-scale stops of `IndiaMap.getColorScale`:
```js
return [
  [0, 'rgb(200, 200, 200)'],  // unknown - gray
  [0.2, 'rgb(120, 220, 120)'], // low - green
  [0.4, 'rgb(255, 255, 0)'],   // medium - yellow
  [0.6, 'rgb(255, 140, 0)'],   // high - orange
  [0.8, 'rgb(255, 0, 0)']      // critical - red
];
``` -/
def indiaMapRiskStops : List (ℚ × String) :=
  [(0, "rgb(200, 200, 200)"),
   (1 / 5, "rgb(120, 220, 120)"),
   (2 / 5, "rgb(255, 255, 0)"),
   (3 / 5, "rgb(255, 140, 0)"),
   (4 / 5, "rgb(255, 0, 0)")]

/-- `IndiaMap.getColorScale`: in `risk_levels` mode the fixed stop list
above for every disease filter; in `rates` mode a disease-specific
gradient. -/
def getColorScale (viewMode : ViewMode) (colorBy : ColorBy) : List (ℚ × String) :=
  match viewMode with
  | .risk_levels => indiaMapRiskStops
  | .rates =>
      match colorBy with
      | .dengue =>
          [(0, "rgb(255, 255, 230)"), (1 / 2, "rgb(255, 140, 0)"), (1, "rgb(178, 34, 34)")]
      | .malaria =>
          [(0, "rgb(240, 255, 240)"), (1 / 2, "rgb(0, 128, 0)"), (1, "rgb(0, 64, 0)")]
      | .heatstroke =>
          [(0, "rgb(255, 255, 200)"), (1 / 2, "rgb(255, 170, 0)"), (1, "rgb(255, 0, 0)")]
      | .diarrhea =>
          [(0, "rgb(240, 240, 255)"), (1 / 2, "rgb(0, 170, 255)"), (1, "rgb(0, 0, 128)")]
      | .overall =>
          [(0, "rgb(240, 240, 240)"), (1 / 2, "rgb(255, 200, 0)"), (1, "rgb(255, 0, 0)")]

/-- The colour the `IndiaMap` scale assigns to a risk level under a filter:
the stop anchored at the level's position `riskLevelToValue lv / 5`. -/
def indiaMapRiskColor (lv : RiskLevel) (colorBy : ColorBy) : String :=
  match (getColorScale .risk_levels colorBy).find? fun s =>
      decide (s.1 = riskLevelToValue lv / 5) with
  | some s => s.2
  | none => ""

/-- Abstract hue names; each colour token used by the two maps carries a
source comment naming its hue, transcribed in `hueOfToken`. -/
inductive Hue
  | gray
  | green
  | yellow
  | orange
  | red
  | purple
  deriving DecidableEq, Repr

/-- The hue each colour token denotes, as named by the source's own
comments (for example `'#FFA726' // Orange`, `[0.4, 'rgb(255, 255, 0)'] //
medium - yellow`). -/
def hueOfToken : String → Option Hue
  | "#CCCCCC" => some .gray
  | "#66BB6A" => some .green
  | "#FFEE58" => some .yellow
  | "#FFA726" => some .orange
  | "#EF5350" => some .red
  | "#7B1FA2" => some .purple
  | "rgb(200, 200, 200)" => some .gray
  | "rgb(120, 220, 120)" => some .green
  | "rgb(255, 255, 0)" => some .yellow
  | "rgb(255, 140, 0)" => some .orange
  | "rgb(255, 0, 0)" => some .red
  | _ => none

/-! Section: Helper lemmas -/

theorem rlMax_toNat (a b : RiskLevel) :
    (rlMax a b).toNat = max a.toNat b.toNat := by
  unfold rlMax; split <;> omega

theorem toNat_inj {a b : RiskLevel} (h : a.toNat = b.toNat) : a = b := by
  cases a <;> cases b <;> simp_all [RiskLevel.toNat]

theorem le_listMaxLevel (rs : List DiseaseRiskRecord) :
    ∀ r ∈ rs, r.risk_level.toNat ≤ (listMaxLevel rs).toNat := by
  induction rs with
  | nil => intro r hr; cases hr
  | cons a l ih =>
      intro r hr
      have hfold : listMaxLevel (a :: l) = rlMax a.risk_level (listMaxLevel l) := rfl
      rcases List.mem_cons.mp hr with h | h
      · subst h; rw [hfold, rlMax_toNat]; omega
      · have := ih r h; rw [hfold, rlMax_toNat]; omega

theorem listMaxLevel_mem (rs : List DiseaseRiskRecord) (h : rs ≠ []) :
    ∃ r ∈ rs, r.risk_level = listMaxLevel rs := by
  induction rs with
  | nil => exact absurd rfl h
  | cons a l ih =>
      have hfold : listMaxLevel (a :: l) = rlMax a.risk_level (listMaxLevel l) := rfl
      rw [hfold]
      unfold rlMax
      split
      · rename_i hle
        cases l with
        | nil =>
            refine ⟨a, List.mem_cons_self a [], ?_⟩
            have h0 : a.risk_level.toNat = 0 := by
              have : (listMaxLevel []).toNat = 0 := rfl
              omega
            exact toNat_inj (by simpa [listMaxLevel, RiskLevel.toNat] using h0)
        | cons b m =>
            rcases ih (by simp) with ⟨r, hr, he⟩
            exact ⟨r, List.mem_cons_of_mem a hr, he⟩
      · exact ⟨a, List.mem_cons_self a l, rfl⟩

theorem forall_disease (P : Disease → Prop) :
    (∀ d, P d) ↔ P .dengue ∧ P .malaria ∧ P .heatstroke ∧ P .diarrhea := by
  constructor
  · intro h; exact ⟨h _, h _, h _, h _⟩
  · rintro ⟨h0, h1, h2, h3⟩ d; cases d <;> assumption

theorem find_diseaseEnumOrder (p : Disease → Bool) (d : Disease) :
    diseaseEnumOrder.find? p = some d ↔
      p d = true ∧ ∀ e, diseaseIndex e < diseaseIndex d → p e = false := by
  cases h0 : p .dengue <;> cases h1 : p .malaria <;> cases h2 : p .heatstroke <;>
    cases h3 : p .diarrhea <;> cases d <;>
      simp [diseaseEnumOrder, List.find?, h0, h1, h2, h3, forall_disease, diseaseIndex]

theorem hasLevel_max_iff (rs : List DiseaseRiskRecord) (d : Disease) :
    hasLevel rs d (listMaxLevel rs) = true ↔ achievesMax rs d := by
  unfold hasLevel achievesMax
  simp only [List.any_eq_true, decide_eq_true_eq]
  constructor
  · rintro ⟨r, hr, hd, hm⟩
    exact ⟨r, hr, hd, fun s hs => hm ▸ le_listMaxLevel rs s hs⟩
  · rintro ⟨r, hr, hd, hmax⟩
    refine ⟨r, hr, hd, ?_⟩
    rcases listMaxLevel_mem rs (by rintro rfl; cases hr) with ⟨r0, hr0, he⟩
    have h1 : (listMaxLevel rs).toNat ≤ r.risk_level.toNat := he ▸ hmax r0 hr0
    have h2 : r.risk_level.toNat ≤ (listMaxLevel rs).toNat := le_listMaxLevel rs r hr
    exact toNat_inj (Nat.le_antisymm h2 h1)

theorem aggregate_contributing (rs : List DiseaseRiskRecord) (d : Disease) :
    (aggregate rs).contributing_disease = some d ↔
      achievesMax rs d ∧ ∀ e, diseaseIndex e < diseaseIndex d → ¬ achievesMax rs e := by
  unfold aggregate
  cases rs with
  | nil =>
      simp [achievesMax]
  | cons a l =>
      rw [if_neg (by simp)]
      have hfind := find_diseaseEnumOrder (fun e => hasLevel (a :: l) e (listMaxLevel (a :: l))) d
      simp only [OverallRisk.mk.injEq] at *
      constructor
      · intro h
        rcases hfind.mp h with ⟨hp, hlt⟩
        refine ⟨(hasLevel_max_iff _ _).mp hp, fun e he hae => ?_⟩
        have := hlt e he
        rw [← hasLevel_max_iff] at hae
        simp_all
      · rintro ⟨hae, hlt⟩
        refine hfind.mpr ⟨(hasLevel_max_iff _ _).mpr hae, fun e he => ?_⟩
        have := hlt e he
        rw [← hasLevel_max_iff] at this
        simp_all

theorem calculatePercentage_mem (a p : ℚ) :
    0 ≤ calculatePercentage a p ∧ calculatePercentage a p ≤ 100 := by
  unfold calculatePercentage
  split
  · norm_num
  · exact ⟨le_min (by norm_num) (le_max_left _ _), min_le_left _ _⟩

/-! Section: The claims -/

/-- C2: `RiskAggregator.aggregate` returns as `level` the maximum risk
level across all records under the total order
`unknown < low < medium < high < critical` (an upper bound on every
record's level, attained by some record whenever the input is nonempty);
the empty sequence yields `{level: unknown, contributing_disease: null}`;
and `contributing_disease` is exactly the disease that produced that
maximum, ties broken by the enumeration order (dengue, malaria,
heatstroke, diarrhea). -/
theorem C2_aggregate_max (rs : List DiseaseRiskRecord) :
    (∀ r ∈ rs, r.risk_level.toNat ≤ (aggregate rs).level.toNat)
    ∧ (rs ≠ [] → ∃ r ∈ rs, r.risk_level = (aggregate rs).level)
    ∧ (rs = [] → aggregate rs = ⟨.unknown, none⟩)
    ∧ (∀ d, (aggregate rs).contributing_disease = some d ↔
        achievesMax rs d ∧ ∀ e, diseaseIndex e < diseaseIndex d → ¬ achievesMax rs e) := by
  have hlev : rs ≠ [] → (aggregate rs).level = listMaxLevel rs := by
    intro h
    unfold aggregate
    rw [if_neg (by simpa using h)]
  refine ⟨?_, ?_, ?_, fun d => aggregate_contributing rs d⟩
  · intro r hr
    have h : rs ≠ [] := by rintro rfl; cases hr
    rw [hlev h]
    exact le_listMaxLevel rs r hr
  · intro h
    rw [hlev h]
    exact listMaxLevel_mem rs h
  · rintro rfl; rfl

/-- C2 witness: on records `{malaria: low, dengue: critical}` the overall
level is attained and the contributing disease is dengue. -/
theorem C2_aggregate_max_witness :
    (aggregate [⟨.malaria, 1/2, .low⟩, ⟨.dengue, 9/10, .critical⟩]).contributing_disease
        = some Disease.dengue
    ∧ ∃ r ∈ ([⟨.malaria, 1/2, .low⟩, ⟨.dengue, 9/10, .critical⟩] :
        List DiseaseRiskRecord), r.risk_level
          = (aggregate [⟨.malaria, 1/2, .low⟩, ⟨.dengue, 9/10, .critical⟩]).level :=
  ⟨((C2_aggregate_max [⟨.malaria, 1/2, .low⟩, ⟨.dengue, 9/10, .critical⟩]).2.2.2
        Disease.dengue).mpr
      ⟨by decide, fun e he => by cases e <;> simp [diseaseIndex] at he⟩,
    (C2_aggregate_max [⟨.malaria, 1/2, .low⟩, ⟨.dengue, 9/10, .critical⟩]).2.1 (by simp)⟩

/-- C3: the resource-gap boundary behaviour: `gap(0,0)` yields 100 /
sufficient; for positive predicted need the percentage is the raw ratio
clamped into `[0,100]`; the status is sufficient exactly on percentages
`≥ 100`, warning exactly on `[70, 100)`, critical exactly below 70; and
`gap(50,100)` is critical at 50 while `gap(80,100)` is warning at 80. -/
theorem C3_gap_boundary :
    (calculatePercentage 0 0 = 100
      ∧ getResourceStatusColor (calculatePercentage 0 0) = "success.main")
    ∧ (∀ a p : ℚ, 0 < p →
        (0 ≤ a / p * 100 → a / p * 100 ≤ 100 → calculatePercentage a p = a / p * 100)
        ∧ (a / p * 100 < 0 → calculatePercentage a p = 0)
        ∧ (100 < a / p * 100 → calculatePercentage a p = 100))
    ∧ (∀ x : ℚ,
        (getResourceStatusColor x = "success.main" ↔ 100 ≤ x)
        ∧ (getResourceStatusColor x = "warning.main" ↔ 70 ≤ x ∧ x < 100)
        ∧ (getResourceStatusColor x = "error.main" ↔ x < 70))
    ∧ (calculatePercentage 50 100 = 50
      ∧ getResourceStatusColor (calculatePercentage 50 100) = "error.main")
    ∧ (calculatePercentage 80 100 = 80
      ∧ getResourceStatusColor (calculatePercentage 80 100) = "warning.main") := by
  have hval : ∀ a p : ℚ, p ≠ 0 → calculatePercentage a p = min 100 (max 0 (a / p * 100)) := by
    intro a p hp
    unfold calculatePercentage
    rw [if_neg hp]
  refine ⟨⟨by norm_num [calculatePercentage], ?_⟩, ?_, ?_, ?_, ?_⟩
  · norm_num [calculatePercentage, getResourceStatusColor]
  · intro a p hp
    have hp0 : p ≠ 0 := ne_of_gt hp
    refine ⟨fun h0 h100 => ?_, fun h => ?_, fun h => ?_⟩ <;> rw [hval a p hp0]
    · rw [max_eq_right h0, min_eq_right h100]
    · rw [max_eq_left h.le, min_eq_right (by norm_num)]
    · rw [min_eq_left (le_max_of_le_right h.le)]
  · intro x
    unfold getResourceStatusColor
    by_cases h1 : (100:ℚ) ≤ x
    · rw [if_pos h1]
      exact ⟨⟨fun _ => h1, fun _ => rfl⟩,
             ⟨fun hc => absurd hc (by decide), fun hw => absurd h1 (not_le.mpr hw.2)⟩,
             ⟨fun hc => absurd hc (by decide),
               fun hlt => absurd h1 (not_le.mpr (by linarith))⟩⟩
    · rw [if_neg h1]
      by_cases h2 : (70:ℚ) ≤ x
      · rw [if_pos h2]
        exact ⟨⟨fun hc => absurd hc (by decide), fun hge => absurd hge h1⟩,
               ⟨fun _ => ⟨h2, not_le.mp h1⟩, fun _ => rfl⟩,
               ⟨fun hc => absurd hc (by decide),
                 fun hlt => absurd h2 (not_le.mpr hlt)⟩⟩
      · rw [if_neg h2]
        exact ⟨⟨fun hc => absurd hc (by decide), fun hge => absurd hge h1⟩,
               ⟨fun hc => absurd hc (by decide), fun hw => absurd hw.1 h2⟩,
               ⟨fun _ => not_le.mp h2, fun _ => rfl⟩⟩
  · constructor
    · norm_num [calculatePercentage]
    · norm_num [calculatePercentage, getResourceStatusColor]
  · constructor
    · norm_num [calculatePercentage]
    · norm_num [calculatePercentage, getResourceStatusColor]

/-- C3 witness: an interior point, `gap(30, 40)` has percentage 75. -/
theorem C3_gap_boundary_witness : calculatePercentage 30 40 = 75 := by
  have h := (C3_gap_boundary.2.1 30 40 (by norm_num)).1 (by norm_num) (by norm_num)
  rw [h]
  norm_num

/-- C4 counterexample: the source rejects nothing — `gap(-1, 10)` and
`gap(10, -1)` both return the silently clamped percentage 0 instead of
failing with `InvalidQuantity` (the source `calculatePercentage` has no
error path at all: its comment reads `// Clamp between 0-100`). -/
theorem C4_cex : calculatePercentage (-1) 10 = 0 ∧ calculatePercentage 10 (-1) = 0 := by
  constructor <;> norm_num [calculatePercentage]

/-- C4 amended: negative `available` or `predicted` inputs are not
rejected: the calculation always returns a clamped percentage in
`[0, 100]`; in particular `gap(-1, 10)` and `gap(10, -1)` both return
percentage 0 (status critical) with no failure. -/
theorem C4_negative_clamped :
    (∀ a p : ℚ, a < 0 ∨ p < 0 →
      0 ≤ calculatePercentage a p ∧ calculatePercentage a p ≤ 100)
    ∧ (calculatePercentage (-1) 10 = 0
      ∧ getResourceStatusColor (calculatePercentage (-1) 10) = "error.main")
    ∧ (calculatePercentage 10 (-1) = 0
      ∧ getResourceStatusColor (calculatePercentage 10 (-1)) = "error.main") := by
  refine ⟨fun a p _ => calculatePercentage_mem a p, ⟨?_, ?_⟩, ⟨?_, ?_⟩⟩ <;>
    norm_num [calculatePercentage, getResourceStatusColor]

/-- C4 witness: the amended claim at `(-1, 10)`. -/
theorem C4_negative_clamped_witness :
    0 ≤ calculatePercentage (-1) 10 ∧ calculatePercentage (-1) 10 ≤ 100 :=
  C4_negative_clamped.1 (-1) 10 (Or.inl (by norm_num))

/-- C9 counterexample: with both inputs negative the raw ratio is positive,
so the result is neither 0 nor 100: `calculatePercentage(-1, -10) = 10`
while the claim allows only 0 (or 100 for zero predicted need). -/
theorem C9_cex :
    calculatePercentage (-1) (-10) = 10
    ∧ (-10 : ℚ) ≠ 0 ∧ (10 : ℚ) ≠ 0 ∧ (10 : ℚ) ≠ 100 := by
  refine ⟨?_, by norm_num, by norm_num, by norm_num⟩
  norm_num [calculatePercentage]

/-- C9 amended: `calculatePercentage` is total and always returns a value
in `[0, 100]`; when exactly one of the inputs is negative the result is
clamped to 0 (or is 100 when predicted is 0); when both are negative the
raw ratio is positive and is merely clamped into `[0, 100]`. -/
theorem C9_total_clamped :
    (∀ a p : ℚ, 0 ≤ calculatePercentage a p ∧ calculatePercentage a p ≤ 100)
    ∧ (∀ a p : ℚ, a < 0 → 0 ≤ p →
        calculatePercentage a p = if p = 0 then 100 else 0)
    ∧ (∀ a p : ℚ, 0 ≤ a → p < 0 → calculatePercentage a p = 0) := by
  refine ⟨fun a p => calculatePercentage_mem a p, ?_, ?_⟩
  · intro a p ha hp
    unfold calculatePercentage
    by_cases hp0 : p = 0
    · rw [if_pos hp0, if_pos hp0]
    · rw [if_neg hp0, if_neg hp0]
      have hlt : 0 < p := lt_of_le_of_ne hp (Ne.symm hp0)
      have hneg : a / p * 100 ≤ 0 := by
        have : a / p < 0 := div_neg_of_neg_of_pos ha hlt
        nlinarith
      rw [max_eq_left hneg, min_eq_right (by norm_num)]
  · intro a p ha hp
    unfold calculatePercentage
    rw [if_neg (ne_of_lt hp)]
    have hneg : a / p * 100 ≤ 0 := by
      have : a / p ≤ 0 := div_nonpos_of_nonneg_of_nonpos ha hp.le
      nlinarith
    rw [max_eq_left hneg, min_eq_right (by norm_num)]

/-- C9 witness: the amended claim at `(-3, 7)` gives 0. -/
theorem C9_total_clamped_witness : calculatePercentage (-3) 7 = 0 := by
  have h := C9_total_clamped.2.1 (-3) 7 (by norm_num) (by norm_num)
  rw [h]
  norm_num

/-- C5: for a non-administrative viewer with a present, nonzero location
id, the visible alert feed is exactly the input filtered to probability at
or above the threshold and the viewer's location; an administrative viewer
sees every alert at or above the threshold; both outputs are sublists of
the input (relative order preserved, no re-sorting). -/
theorem C5_alert_scoping (alerts : List Alert) (t : ℚ) (l : ℤ) (hl : l ≠ 0) :
    fetchAlertsVisible alerts t false (some l)
      = alerts.filter (fun a => decide (t ≤ a.probability ∧ a.location_id = l))
    ∧ (∀ uid, fetchAlertsVisible alerts t true uid
        = alerts.filter fun a => decide (t ≤ a.probability))
    ∧ List.Sublist (fetchAlertsVisible alerts t false (some l)) alerts
    ∧ ∀ uid, List.Sublist (fetchAlertsVisible alerts t true uid) alerts := by
  have hadmin : ∀ uid, fetchAlertsVisible alerts t true uid
      = alerts.filter fun a => decide (t ≤ a.probability) := by
    intro uid
    cases uid <;> simp [fetchAlertsVisible, alertsPageSelect, alertsCollaborator]
  have hmain : fetchAlertsVisible alerts t false (some l)
      = alerts.filter (fun a => decide (t ≤ a.probability ∧ a.location_id = l)) := by
    simp only [fetchAlertsVisible, alertsPageSelect, alertsCollaborator]
    rw [if_pos ⟨by simp, hl⟩, List.filter_filter]
    refine List.filter_congr fun a _ => ?_
    rw [Bool.decide_and]
    exact Bool.and_comm _ _
  refine ⟨hmain, hadmin, ?_, fun uid => ?_⟩
  · rw [hmain]; exact List.filter_sublist alerts
  · rw [hadmin uid]; exact List.filter_sublist alerts

/-- C5 witness: the spec's clinician scenario — viewer location 7,
alerts at locations 3, 7, 7, 9 all meeting threshold 0.7: exactly the two
location-7 alerts are shown, in input order. -/
theorem C5_alert_scoping_witness :
    fetchAlertsVisible
        [⟨3, "dengue", "high", 9/10, "m1"⟩, ⟨7, "malaria", "high", 8/10, "m2"⟩,
         ⟨7, "dengue", "critical", 9/10, "m3"⟩, ⟨9, "heatstroke", "high", 19/20, "m4"⟩]
        (7/10) false (some 7)
      = [⟨7, "malaria", "high", 8/10, "m2"⟩, ⟨7, "dengue", "critical", 9/10, "m3"⟩] := by
  have h := (C5_alert_scoping
      [⟨3, "dengue", "high", 9/10, "m1"⟩, ⟨7, "malaria", "high", 8/10, "m2"⟩,
       ⟨7, "dengue", "critical", 9/10, "m3"⟩, ⟨9, "heatstroke", "high", 19/20, "m4"⟩]
      (7/10) 7 (by decide)).1
  rw [h]
  norm_num [List.filter_cons]

/-- C10: a non-administrative viewer whose own location id is absent
(`undefined`) or 0 gets no location restriction: the page shows every
alert the collaborator returned, identically to an administrator. -/
theorem C10_no_location_no_scope (alerts : List Alert) (t : ℚ) (uid : Option ℤ)
    (h : uid = none ∨ uid = some 0) :
    fetchAlertsVisible alerts t false uid = alertsCollaborator alerts t
    ∧ fetchAlertsVisible alerts t false uid = fetchAlertsVisible alerts t true uid := by
  rcases h with rfl | rfl <;> constructor <;>
    simp [fetchAlertsVisible, alertsPageSelect]

/-- C10 witness: a location-less non-admin viewer sees the collaborator's
full list. -/
theorem C10_no_location_no_scope_witness :
    fetchAlertsVisible [⟨3, "dengue", "high", 9/10, "m"⟩] (7/10) false none
      = alertsCollaborator [⟨3, "dengue", "high", 9/10, "m"⟩] (7/10) :=
  (C10_no_location_no_scope [⟨3, "dengue", "high", 9/10, "m"⟩] (7/10) none
    (Or.inl rfl)).1

/-- C1 counterexample: `select(1)`, then `select(2)`, then location 2's
risk response resolves, then location 1's stale response resolves last.
The stale response is applied, not discarded: the final visible risk data
is location 1's payload while the active selection is location 2. -/
theorem C1_cex :
    (riskResolveOk
        (riskResolveOk
          (handleLocationSelect
            (handleLocationSelect dashInit (JSNum.num 1) "Kerala").1
            (JSNum.num 2) "Goa").1
          ⟨2⟩)
        ⟨1⟩).riskData = some ⟨1⟩
    ∧ (riskResolveOk
        (riskResolveOk
          (handleLocationSelect
            (handleLocationSelect dashInit (JSNum.num 1) "Kerala").1
            (JSNum.num 2) "Goa").1
          ⟨2⟩)
        ⟨1⟩).selectedLocation = some (2, "Goa") := by
  exact ⟨rfl, rfl⟩

/-- C1 amended: fetch completion applies the response unconditionally
(last-write-wins): there is no epoch check, so whichever response resolves
last becomes the visible data for its category, regardless of the current
selection, which the completion leaves unchanged. -/
theorem C1_last_write_wins (st : DashState) (p : RiskPayload) (q : ResourcePayload) :
    (riskResolveOk st p).riskData = some p
    ∧ (riskResolveOk st p).selectedLocation = st.selectedLocation
    ∧ (resourceResolveOk st q).resourceData = some q
    ∧ (resourceResolveOk st q).selectedLocation = st.selectedLocation :=
  ⟨rfl, rfl, rfl, rfl⟩

/-- C6 counterexample: after a risk-fetch failure the (single, shared)
error field shows the risk message; a subsequent resource-fetch failure
overwrites it — the risk category's error display state is changed by the
resource failure, so the two fetches do not track their own error state. -/
theorem C6_cex :
    (riskResolveErr
        (handleLocationSelect dashInit (JSNum.num 1) "Kerala").1).error = riskErrMsg
    ∧ (resourceResolveErr
        (riskResolveErr
          (handleLocationSelect dashInit (JSNum.num 1) "Kerala").1)).error = resourceErrMsg
    ∧ riskErrMsg ≠ resourceErrMsg := by
  exact ⟨rfl, rfl, by decide⟩

/-- C6 amended: the two fetches track their own loading flags, and a
failure (or success) of either fetch leaves the other category's data and
loading flag unchanged — but error reporting goes through one shared
message field, so a later failure overwrites the other category's error
message. -/
theorem C6_partial_isolation (st : DashState) (p : RiskPayload) (q : ResourcePayload) :
    ((riskResolveErr st).resourceData = st.resourceData
      ∧ (riskResolveErr st).loadingResources = st.loadingResources
      ∧ (riskResolveErr st).riskData = st.riskData)
    ∧ ((resourceResolveErr st).riskData = st.riskData
      ∧ (resourceResolveErr st).loadingRisk = st.loadingRisk
      ∧ (resourceResolveErr st).resourceData = st.resourceData)
    ∧ ((riskResolveOk st p).resourceData = st.resourceData
      ∧ (riskResolveOk st p).loadingResources = st.loadingResources
      ∧ (riskResolveOk st p).error = st.error)
    ∧ ((resourceResolveOk st q).riskData = st.riskData
      ∧ (resourceResolveOk st q).loadingRisk = st.loadingRisk
      ∧ (resourceResolveOk st q).error = st.error)
    ∧ (resourceResolveErr st).error = resourceErrMsg
    ∧ (riskResolveErr st).error = riskErrMsg :=
  ⟨⟨rfl, rfl, rfl⟩, ⟨rfl, rfl, rfl⟩, ⟨rfl, rfl, rfl⟩, ⟨rfl, rfl, rfl⟩, rfl, rfl⟩

/-- C7: an invalid `locationId` (`null` or `NaN`) makes
`handleLocationSelect` fail with the invalid-selection error and leave the
active location, the stored risk data, the stored resource data and both
loading flags exactly as before, issuing no fetch. -/
theorem C7_invalid_selection (st : DashState) (v : JSNum) (name : String)
    (h : v = JSNum.null ∨ v = JSNum.nan) :
    (handleLocationSelect st v name).1.selectedLocation = st.selectedLocation
    ∧ (handleLocationSelect st v name).1.riskData = st.riskData
    ∧ (handleLocationSelect st v name).1.resourceData = st.resourceData
    ∧ (handleLocationSelect st v name).1.loadingRisk = st.loadingRisk
    ∧ (handleLocationSelect st v name).1.loadingResources = st.loadingResources
    ∧ (handleLocationSelect st v name).1.error = invalidSelectionMsg
    ∧ (handleLocationSelect st v name).2 = [] := by
  rcases h with rfl | rfl <;>
    simp [handleLocationSelect, JSNum.truthy, JSNum.jsIsNaN]

/-- C7 witness: `select(null)` on a dashboard holding location 5's data
changes none of the selection state and issues no fetch. -/
theorem C7_invalid_selection_witness :
    (handleLocationSelect ⟨some (5, "Goa"), some ⟨5⟩, some ⟨5⟩, false, false, ""⟩
        JSNum.null "X").1.selectedLocation = some (5, "Goa")
    ∧ (handleLocationSelect ⟨some (5, "Goa"), some ⟨5⟩, some ⟨5⟩, false, false, ""⟩
        JSNum.null "X").1.riskData = some ⟨5⟩
    ∧ (handleLocationSelect ⟨some (5, "Goa"), some ⟨5⟩, some ⟨5⟩, false, false, ""⟩
        JSNum.null "X").2 = [] :=
  have h := C7_invalid_selection
    ⟨some (5, "Goa"), some ⟨5⟩, some ⟨5⟩, false, false, ""⟩ JSNum.null "X" (Or.inl rfl)
  ⟨h.1, h.2.1, h.2.2.2.2.2.2⟩

/-- C8 counterexample: a location at overall risk level medium renders
`#FFA726` (orange) on the Leaflet map, while the Plotly `IndiaMap` scale
places medium at `rgb(255, 255, 0)` (yellow): the claimed shared
medium→yellow mapping fails on the Leaflet map, and the two map
implementations disagree. -/
theorem C8_cex :
    getColor [⟨"Kerala", none, none, none, none, some RiskLevel.medium, 0, 0, 0, 0, 0⟩]
        ViewMode.risk_levels ColorBy.overall "Kerala" = "#FFA726"
    ∧ hueOfToken "#FFA726" = some Hue.orange
    ∧ hueOfToken (indiaMapRiskColor RiskLevel.medium ColorBy.overall) = some Hue.yellow
    ∧ Hue.orange ≠ Hue.yellow := by
  refine ⟨rfl, rfl, ?_, by decide⟩
  norm_num [indiaMapRiskColor, getColorScale, indiaMapRiskStops, riskLevelToValue,
    RiskLevel.toNat, List.find?_cons, hueOfToken]

/-- C8 amended: within each map implementation, risk-level colour is a
fixed function of the level alone, identical across all disease filters
(`getColor` factors through `leafletRiskColor`; `getColorScale` returns
the same stops for every filter); the two palettes agree on unknown→gray
and low→green, but differ above: the Leaflet map uses
medium→orange, high→red, critical→purple while the Plotly map uses
medium→yellow, high→orange, critical→red. -/
theorem C8_palette (data : List LocationSummary) (cb : ColorBy) (name : String) :
    getColor data ViewMode.risk_levels cb name
      = leafletRiskColor (((data.find? fun loc => decide (loc.name = name)).map
          fun loc => riskLevelField loc cb).getD RiskLevel.unknown)
    ∧ (∀ cb2 : ColorBy, getColorScale ViewMode.risk_levels cb2 = indiaMapRiskStops)
    ∧ (hueOfToken (leafletRiskColor RiskLevel.unknown) = some Hue.gray
      ∧ hueOfToken (indiaMapRiskColor RiskLevel.unknown cb) = some Hue.gray)
    ∧ (hueOfToken (leafletRiskColor RiskLevel.low) = some Hue.green
      ∧ hueOfToken (indiaMapRiskColor RiskLevel.low cb) = some Hue.green)
    ∧ (hueOfToken (leafletRiskColor RiskLevel.medium) = some Hue.orange
      ∧ hueOfToken (indiaMapRiskColor RiskLevel.medium cb) = some Hue.yellow)
    ∧ (hueOfToken (leafletRiskColor RiskLevel.high) = some Hue.red
      ∧ hueOfToken (indiaMapRiskColor RiskLevel.high cb) = some Hue.orange)
    ∧ (hueOfToken (leafletRiskColor RiskLevel.critical) = some Hue.purple
      ∧ hueOfToken (indiaMapRiskColor RiskLevel.critical cb) = some Hue.red) := by
  refine ⟨?_, fun cb2 => by cases cb2 <;> rfl, ?_, ?_, ?_, ?_, ?_⟩
  · cases hf : data.find? fun loc => decide (loc.name = name) with
    | none => simp [getColor, hf, leafletRiskColor]
    | some loc => simp [getColor, hf]
  all_goals
    refine ⟨rfl, ?_⟩
    cases cb <;>
      norm_num [indiaMapRiskColor, getColorScale, indiaMapRiskStops, riskLevelToValue,
        RiskLevel.toNat, List.find?_cons, hueOfToken]

end ClimateDash
